import Mathlib

/-!
Verification of the camera-based code-scanning subsystem of the
meat-traceability repository.

The development shallowly embeds the scanning code:

* `detectCameraSupport` embeds `src/lib/camera.ts` (capability probing);
* `pickCameraSource` embeds the camera selection of the native scanner module;
* `scannerStart` / `scannerStop` embed `NativeBarcodeScanner.start` / `.stop`,
  with the set of live (acquired but not yet stopped) camera streams made
  explicit;
* `scanFrames` embeds the `scanFrame` detection loop together with its
  `detectionErrorNotified` flag;
* `handleDecode` / `runSession` embed the `cancelled`-flag logic of the
  `QRScanner` component effect (decode-success callback and cleanup);
* `classifyStartError` / `handleStartError` embed the component's catch block;
* `loadHtml5Qrcode` / `onScriptSettle` embed the memoized external library
  loader;
* `onPickFile` embeds the still-image fallback handler;
* `openScanBody` embeds the strategy decision of the component effect body.

JavaScript strings are Lean `String`s; `jsTrim` models
`String.prototype.trim` and `lowerString`/`containsCI` model the
case-insensitive regular-expression substring tests used by the code.
-/

/-- Drop leading whitespace characters from a character list. -/
def dropWhileWS : List Char → List Char
  | [] => []
  | c :: cs => if c.isWhitespace then dropWhileWS cs else c :: cs

/-- Model of the JavaScript `String.prototype.trim`: remove whitespace at
both ends of the string. -/
def jsTrim (s : String) : String :=
  ⟨(dropWhileWS (dropWhileWS s.data.reverse).reverse)⟩

/-- ASCII lowercasing of a string, modelling the effect of the `i` flag of
the JavaScript regular expressions used by the code (all alphabetic pattern
characters involved are ASCII). -/
def lowerString (s : String) : String :=
  ⟨s.data.map Char.toLower⟩

/-- `listStartsWith l p` holds when `p` is an initial segment of `l`. -/
def listStartsWith : List Char → List Char → Bool
  | _, [] => true
  | [], _ :: _ => false
  | c :: cs, d :: ds => c == d && listStartsWith cs ds

/-- `listContainsSub l p`: `p` occurs as a contiguous segment of `l`. -/
def listContainsSub : List Char → List Char → Bool
  | [], p => p.isEmpty
  | c :: cs, p => listStartsWith (c :: cs) p || listContainsSub cs p

/-- Case-insensitive substring test, modelling `/pat/i.test(s)` for a
pattern that is a literal alternative. -/
def containsCI (s pat : String) : Bool :=
  listContainsSub (lowerString s).data (lowerString pat).data

/-! ### Capability probing: `detectCameraSupport` (src/lib/camera.ts) -/

/-- A JavaScript property value as far as the probes distinguish it:
either a function or some other defined value. -/
inductive JsVal where
  | func
  | other
deriving DecidableEq

/-- `typeof v === "function"` on an optional property. -/
def isFunc : Option JsVal → Bool
  | some JsVal.func => true
  | _ => false

/-- The `navigator.mediaDevices` object: only its `getUserMedia` property is
probed. `none` models an absent property. -/
structure MediaDevicesObj where
  getUserMedia : Option JsVal
deriving DecidableEq

/-- The `navigator` global as probed by `detectCameraSupport`. -/
structure NavigatorObj where
  mediaDevices : Option MediaDevicesObj
  getUserMedia : Option JsVal
  webkitGetUserMedia : Option JsVal
  mozGetUserMedia : Option JsVal
deriving DecidableEq

/-- The global environment: `navigator` may be entirely undefined
(server-side rendering). -/
structure JsEnv where
  navigator : Option NavigatorObj
deriving DecidableEq

/-- Embedding of `detectCameraSupport` from `src/lib/camera.ts`: return
`false` when `navigator` is undefined; otherwise probe
`mediaDevices.getUserMedia` (function test, then an `in` presence test),
then the legacy and prefixed `getUserMedia` entry points (function tests). -/
def detectCameraSupport (env : JsEnv) : Bool :=
  match env.navigator with
  | none => false
  | some nav =>
    if (match nav.mediaDevices with
        | some devices => isFunc devices.getUserMedia || devices.getUserMedia.isSome
        | none => false) then true
    else if isFunc nav.getUserMedia then true
    else if isFunc nav.webkitGetUserMedia then true
    else if isFunc nav.mozGetUserMedia then true
    else false

/-- Presence of at least one probed `getUserMedia` entry point:
`mediaDevices.getUserMedia` present as a property, or one of the legacy /
prefixed variants present as a function. -/
def someEntryPoint (nav : NavigatorObj) : Bool :=
  (match nav.mediaDevices with
   | some devices => devices.getUserMedia.isSome
   | none => false)
  || isFunc nav.getUserMedia
  || isFunc nav.webkitGetUserMedia
  || isFunc nav.mozGetUserMedia

/-! ### Camera selection: `pickCameraSource` (native scanner module) -/

/-- An enumerated camera device as used by the scanner module. -/
structure CameraDevice where
  id : String
  label : String
deriving DecidableEq

/-- A start source handed to the engine: either a facing-mode request or a
concrete device id. -/
inductive StartSource where
  | facing (ideal : String)
  | deviceId (id : String)
deriving DecidableEq

/-- The label test `/back|rear|environment|后置/i.test(label)`. -/
def isRearLabel (d : CameraDevice) : Bool :=
  containsCI d.label "back" || containsCI d.label "rear" ||
  containsCI d.label "environment" || containsCI d.label "后置"

/-- Embedding of `pickCameraSource`: with no enumerated devices, ask for an
environment-facing stream; otherwise use the first rear-looking device's id,
else the first device's id. -/
def pickCameraSource (cameras : Option (List CameraDevice)) : StartSource :=
  match cameras with
  | none => StartSource.facing "environment"
  | some [] => StartSource.facing "environment"
  | some (d :: ds) =>
    match (d :: ds).find? isRearLabel with
    | some back => StartSource.deviceId back.id
    | none => StartSource.deviceId d.id

/-- The branching structure of `detectCameraSupport` flattens to a
disjunction of the probes. -/
theorem detect_eq_someEntryPoint (env : JsEnv) :
    detectCameraSupport env =
      (match env.navigator with
       | none => false
       | some nav => someEntryPoint nav) := by
  rcases env with ⟨_ | ⟨md, g, w, m⟩⟩
  · rfl
  · rcases md with _ | ⟨gm⟩
    · rcases g with _ | (_ | _) <;> rcases w with _ | (_ | _) <;>
        rcases m with _ | (_ | _) <;> rfl
    · rcases gm with _ | (_ | _) <;> rcases g with _ | (_ | _) <;>
        rcases w with _ | (_ | _) <;> rcases m with _ | (_ | _) <;> rfl

/-- Claim C10: `detectCameraSupport` is a total boolean function; it returns
`false` whenever the `navigator` global is undefined, and it returns `true`
exactly when at least one probed `getUserMedia` entry point is present
(`mediaDevices.getUserMedia` as a property; the legacy, webkit- or
moz-prefixed variants as functions). -/
theorem detectCameraSupport_char (env : JsEnv) :
    (detectCameraSupport env = true ↔
      ∃ nav, env.navigator = some nav ∧ someEntryPoint nav = true) ∧
    (env.navigator = none → detectCameraSupport env = false) := by
  simp only [detect_eq_someEntryPoint]
  cases henv : env.navigator with
  | none => simp
  | some nav => simp

/-- Witness for C10 at concrete environments: no `navigator` gives `false`;
a `navigator` whose only entry point is a webkit-prefixed function gives
`true`. -/
theorem detectCameraSupport_char_witness :
    detectCameraSupport ⟨none⟩ = false ∧
    detectCameraSupport ⟨some ⟨none, none, some JsVal.func, none⟩⟩ = true := by
  refine ⟨(detectCameraSupport_char ⟨none⟩).2 rfl, ?_⟩
  exact (detectCameraSupport_char
    ⟨some ⟨none, none, some JsVal.func, none⟩⟩).1.2
    ⟨⟨none, none, some JsVal.func, none⟩, rfl, by decide⟩

/-- Claim C9: camera source selection follows the fixed preference order:
an empty or absent device list gives a generic environment-facing request;
otherwise the first device whose label matches back/rear/environment/后置
case-insensitively is chosen by id; otherwise the first device's id. -/
theorem pickCameraSource_char (cameras : Option (List CameraDevice)) :
    ((cameras = none ∨ cameras = some []) →
      pickCameraSource cameras = StartSource.facing "environment") ∧
    (∀ d ds, cameras = some (d :: ds) →
      (∀ r, (d :: ds).find? isRearLabel = some r →
        pickCameraSource cameras = StartSource.deviceId r.id) ∧
      ((d :: ds).find? isRearLabel = none →
        pickCameraSource cameras = StartSource.deviceId d.id)) := by
  constructor
  · rintro (h | h) <;> simp [h, pickCameraSource]
  · intro d ds h
    constructor
    · intro r hr
      simp [h, pickCameraSource, hr]
    · intro hr
      simp [h, pickCameraSource, hr]

/-- Witness for C9 at a concrete device list: the second device labelled
"Back Camera" is selected over the first. -/
theorem pickCameraSource_char_witness :
    pickCameraSource (some [⟨"cam0", "Front Camera"⟩, ⟨"cam1", "Back Camera"⟩])
      = StartSource.deviceId "cam1" :=
  ((pickCameraSource_char
      (some [⟨"cam0", "Front Camera"⟩, ⟨"cam1", "Back Camera"⟩])).2
    ⟨"cam0", "Front Camera"⟩ [⟨"cam1", "Back Camera"⟩] rfl).1
    ⟨"cam1", "Back Camera"⟩ (by decide)

/-! ### NativeBarcodeScanner: stream ownership and stop/start
(src/unnamed/part_002) -/

/-- The mutable fields of `NativeBarcodeScanner`: the held `MediaStream`
(identified by a numeric id), the `running` flag, the pending
animation-frame request, the detector handle and the
`detectionErrorNotified` flag. `videoBound` records whether the video
element still has a `srcObject`. -/
structure ScannerState where
  stream : Option Nat
  running : Bool
  frameRequest : Option Nat
  hasDetector : Bool
  videoBound : Bool
  detectionErrorNotified : Bool
deriving DecidableEq

/-- A freshly constructed scanner: no stream, not running. -/
def initScanner : ScannerState :=
  ⟨none, false, none, false, false, false⟩

/-- `stopLoop`: cancel the pending animation frame and clear `running`. -/
def stopLoop (s : ScannerState) : ScannerState :=
  { s with frameRequest := none, running := false }

/-- Embedding of `NativeBarcodeScanner.stop`: stop the loop, detach the
video, stop every track of the held stream and null the handle, drop the
detector and reset the error-notified flag. The second component lists the
ids of streams whose tracks were stopped by this call. -/
def scannerStop (s : ScannerState) : ScannerState × List Nat :=
  let s1 := stopLoop s
  let s2 := { s1 with videoBound := false }
  let stopped := match s2.stream with
    | some sid => [sid]
    | none => []
  let s3 := { s2 with stream := none }
  let s4 := { s3 with hasDetector := false, detectionErrorNotified := false }
  (s4, stopped)

/-- Remove from `live` every id listed in `stopped`. -/
def removeAll (live stopped : List Nat) : List Nat :=
  live.filter (fun sid => !(stopped.contains sid))

/-- Outcome of a `start` call: resolved, or rejected with a message. -/
inductive StartResult where
  | ok
  | err (msg : String)
deriving DecidableEq

/-- Embedding of `NativeBarcodeScanner.start` after its environment checks
(which throw before touching any state): if already `running`, first await a
full `stop`; reset `detectionErrorNotified`; acquire the camera stream
(`acquireOk` tells whether `getUserMedia` resolves, `newId` names the new
stream); bind it to the video element; construct the detector (`detectorOk`);
on detector failure, stop and rethrow; on success set `running` and schedule
the first frame. `live` is the ambient set of acquired-but-unstopped
streams, threaded through explicitly. -/
def scannerStart (s : ScannerState) (live : List Nat)
    (newId : Nat) (acquireOk : Bool) (detectorOk : Bool) :
    StartResult × ScannerState × List Nat :=
  let p :=
    if s.running then
      let r := scannerStop s
      (r.1, removeAll live r.2)
    else (s, live)
  let s2 := { p.1 with detectionErrorNotified := false }
  if acquireOk then
    let s3 := { s2 with stream := some newId }
    let live3 := newId :: p.2
    let s4 := { s3 with videoBound := true }
    if detectorOk then
      (StartResult.ok,
       { s4 with hasDetector := true, running := true, frameRequest := some 0 },
       live3)
    else
      let r := scannerStop s4
      (StartResult.err "初始化扫码器失败", r.1, removeAll live3 r.2)
  else
    (StartResult.err "摄像头权限获取失败", s2, p.2)

/-- The stream-ownership invariant: the ambient live set is exactly the
scanner's held stream, and a held stream implies the scanner is running. -/
def scannerInv (s : ScannerState) (live : List Nat) : Prop :=
  live = s.stream.toList ∧ (s.stream ≠ none → s.running = true)

instance (s : ScannerState) (live : List Nat) : Decidable (scannerInv s live) := by
  unfold scannerInv
  infer_instance

/-- The initial scanner with no live stream satisfies the invariant. -/
theorem scannerInv_init : scannerInv initScanner [] := by
  constructor <;> simp [initScanner]

/-- `scannerStop` clears the stream and removes exactly the held stream
from the live set. -/
theorem scannerStop_live (s : ScannerState) (live : List Nat)
    (h : scannerInv s live) :
    scannerInv (scannerStop s).1 (removeAll live (scannerStop s).2) := by
  obtain ⟨h1, _⟩ := h
  cases hs : s.stream <;>
    simp [scannerInv, scannerStop, stopLoop, removeAll, h1, hs]

/-- Claim C2: at most one live camera stream is held at any time. Starting a
scanner that is already running first performs a full stop — removing the
previous stream from the live set and nulling the handle — before acquiring
the new stream, so from any state satisfying the ownership invariant,
`scannerStart` leaves the live set either exactly the new stream or empty
(never two streams), re-establishes the invariant, and a successful start
holds precisely the new stream. -/
theorem scannerStart_single_stream (s : ScannerState) (live : List Nat)
    (newId : Nat) (acquireOk detectorOk : Bool)
    (h : scannerInv s live) :
    scannerInv (scannerStart s live newId acquireOk detectorOk).2.1
      (scannerStart s live newId acquireOk detectorOk).2.2 ∧
    ((scannerStart s live newId acquireOk detectorOk).2.2 = [newId] ∨
     (scannerStart s live newId acquireOk detectorOk).2.2 = []) ∧
    ((scannerStart s live newId acquireOk detectorOk).1 = StartResult.ok →
     (scannerStart s live newId acquireOk detectorOk).2.2 = [newId]) ∧
    (scannerStart s live newId acquireOk detectorOk).2.2.length ≤ 1 := by
  obtain ⟨h1, h2⟩ := h
  cases hr : s.running <;> cases hs : s.stream <;>
    cases acquireOk <;> cases detectorOk <;>
      simp_all [scannerInv, scannerStart, scannerStop, stopLoop, removeAll,
        StartResult.err]

/-- Witness for C2: a running scanner holding stream 5 is restarted with a
new stream 7; the live set afterwards is exactly `[7]`. -/
theorem scannerStart_single_stream_witness :
    scannerInv ⟨some 5, true, some 0, true, true, false⟩ [5] ∧
    (scannerStart ⟨some 5, true, some 0, true, true, false⟩ [5] 7 true true).2.2
      = [7] :=
  ⟨by decide,
   (scannerStart_single_stream ⟨some 5, true, some 0, true, true, false⟩
      [5] 7 true true (by decide)).2.2.1 (by decide)⟩

/-! ### QRScanner component session: the `cancelled` flag -/

/-- An asynchronous completion observed by one mount of the `QRScanner`
component: a decode-success callback carrying the raw decoded text, or the
effect cleanup (close/unmount). -/
inductive ScanEvent where
  | decode (text : String)
  | close
deriving DecidableEq

/-- Embedding of the component's decode-success callback: if `cancelled`
already holds, discard; trim the text; discard an empty value; otherwise set
`cancelled` and deliver the value via `onDetected`. Returns the new flag and
the delivered value, if any. -/
def handleDecode (cancelled : Bool) (text : String) : Bool × Option String :=
  if cancelled then (cancelled, none)
  else
    let value := jsTrim text
    if value = "" then (cancelled, none)
    else (true, some value)

/-- Run one scan session over a list of completions, starting from the given
`cancelled` flag; the cleanup sets the flag monotonically. Returns the list
of values delivered via `onDetected`, in order. -/
def runSession (cancelled : Bool) : List ScanEvent → List String
  | [] => []
  | ScanEvent.close :: rest => runSession true rest
  | ScanEvent.decode t :: rest =>
    match handleDecode cancelled t with
    | (c, none) => runSession c rest
    | (c, some v) => v :: runSession c rest

/-- Once the `cancelled` flag is set, no completion is ever honoured. -/
theorem runSession_cancelled (evs : List ScanEvent) :
    runSession true evs = [] := by
  induction evs with
  | nil => rfl
  | cons e rest ih =>
    cases e with
    | close => simpa [runSession] using ih
    | decode t => simpa [runSession, handleDecode] using ih

/-- `onDetected` fires at most once in any session. -/
theorem runSession_length (cancelled : Bool) (evs : List ScanEvent) :
    (runSession cancelled evs).length ≤ 1 := by
  induction evs generalizing cancelled with
  | nil => simp [runSession]
  | cons e rest ih =>
    cases e with
    | close => simpa [runSession] using ih true
    | decode t =>
      by_cases hc : cancelled = true
      · subst hc
        simp [runSession_cancelled]
      · replace hc : cancelled = false := by simpa using hc
        subst hc
        by_cases hv : jsTrim t = ""
        · simpa [runSession, handleDecode, hv] using ih false
        · simp [runSession, handleDecode, hv, runSession_cancelled]

/-- Events arriving after a close are all discarded. -/
theorem runSession_after_close (cancelled : Bool)
    (pre post : List ScanEvent) :
    runSession cancelled (pre ++ ScanEvent.close :: post) =
      runSession cancelled (pre ++ [ScanEvent.close]) := by
  induction pre generalizing cancelled with
  | nil => simp [runSession, runSession_cancelled]
  | cons e rest ih =>
    cases e with
    | close => simpa [runSession] using ih true
    | decode t =>
      cases h : handleDecode cancelled t with
      | mk c v =>
        cases v <;> simp [runSession, h, ih c]

/-- Claim C1: per scan session at most one terminal callback is honoured:
`onDetected` fires at most once, and every completion that arrives after the
session has been closed (the monotonic `cancelled` flag is set by the
cleanup) is discarded, so `onDetected` never fires twice and never fires
after close. -/
theorem session_at_most_one_terminal (evs pre post : List ScanEvent) :
    (runSession false evs).length ≤ 1 ∧
    (evs = pre ++ ScanEvent.close :: post →
      runSession false evs = runSession false (pre ++ [ScanEvent.close])) := by
  refine ⟨runSession_length false evs, ?_⟩
  intro h
  rw [h]
  exact runSession_after_close false pre post

/-- Witness for C1: a session that decodes "A", is closed, and then receives
a late decode of "B" delivers exactly ["A"]. -/
theorem session_at_most_one_terminal_witness :
    runSession false
        [ScanEvent.decode "A", ScanEvent.close, ScanEvent.decode "B"] =
      runSession false [ScanEvent.decode "A", ScanEvent.close] ∧
    runSession false [ScanEvent.decode "A", ScanEvent.close] = ["A"] :=
  ⟨(session_at_most_one_terminal
      [ScanEvent.decode "A", ScanEvent.close, ScanEvent.decode "B"]
      [ScanEvent.decode "A"] [ScanEvent.decode "B"]).2 rfl,
   by decide⟩

/-- Claim C8: close is idempotent. A second `scannerStop` leaves the state
exactly as the first did (stream null, loop cancelled, no pending frame) and
stops no further tracks; and once a session is settled/cancelled, no
callback of any kind is ever invoked again. -/
theorem scannerStop_idempotent :
    (∀ s : ScannerState,
      (scannerStop (scannerStop s).1).1 = (scannerStop s).1 ∧
      (scannerStop (scannerStop s).1).2 = [] ∧
      (scannerStop s).1.stream = none ∧
      (scannerStop s).1.running = false ∧
      (scannerStop s).1.frameRequest = none) ∧
    (∀ evs : List ScanEvent, runSession true evs = []) := by
  refine ⟨?_, runSession_cancelled⟩
  intro s
  cases hs : s.stream <;> simp [scannerStop, stopLoop, hs]

/-! ### The native detection loop: `scanFrame` and
`detectionErrorNotified` -/

/-- The outcome of one `detector.detect(video)` call: a decoded detection
(carrying the raw value of the first result), no code found, or a raised
error with a message. -/
inductive FrameResult where
  | found (raw : String)
  | noCode
  | raiseErr (msg : String)
deriving DecidableEq

/-- Observable output of a run of the detection loop: the error-callback
invocations, in order, and the delivered success value, if any. -/
structure ScanFrameOut where
  errors : List String
  success : Option String
deriving DecidableEq

/-- Embedding of the `scanFrame` loop of `NativeBarcodeScanner.start`: on a
detection whose trimmed value is non-empty, stop the loop and deliver it; on
no code (or an empty value) reschedule; on a raised error, invoke the error
callback only if `detectionErrorNotified` is still unset, set the flag, and
reschedule. -/
def scanFrames (notified : Bool) : List FrameResult → ScanFrameOut
  | [] => ⟨[], none⟩
  | FrameResult.found raw :: rest =>
    let value := jsTrim raw
    if value = "" then scanFrames notified rest
    else ⟨[], some value⟩
  | FrameResult.noCode :: rest => scanFrames notified rest
  | FrameResult.raiseErr m :: rest =>
    if notified then scanFrames notified rest
    else
      let out := scanFrames true rest
      ⟨m :: out.errors, out.success⟩

/-- Once `detectionErrorNotified` is set, no further error callback fires. -/
theorem scanFrames_notified (fs : List FrameResult) :
    (scanFrames true fs).errors = [] := by
  induction fs with
  | nil => rfl
  | cons f rest ih =>
    cases f with
    | found raw =>
      by_cases hv : jsTrim raw = "" <;> simp [scanFrames, hv, ih]
    | noCode => simpa [scanFrames] using ih
    | raiseErr m => simpa [scanFrames] using ih

/-- Counterexample to C3 as stated: a single frame-inspection raise followed
by normal "no code" frames does reach the error callback — the first raise
is surfaced immediately, not suppressed. -/
theorem scanFrames_first_error_surfaced :
    (scanFrames false
        [FrameResult.raiseErr "boom", FrameResult.noCode,
         FrameResult.noCode]).errors = ["boom"] := by
  decide

/-- Claim C3 (amended): when per-frame detection raises, the first
occurrence per `start` invocation is surfaced immediately through the error
callback and every subsequent occurrence is suppressed (at most one error
callback per run); the loop continues after an error, so a later decodable
frame still delivers its value. -/
theorem scanFrames_error_policy (fs : List FrameResult) (m : String) :
    (scanFrames false fs).errors.length ≤ 1 ∧
    (scanFrames false (FrameResult.raiseErr m :: fs)).errors = [m] ∧
    (scanFrames false (FrameResult.raiseErr m :: fs)).success =
      (scanFrames true fs).success := by
  refine ⟨?_, by simp [scanFrames, scanFrames_notified], by simp [scanFrames]⟩
  induction fs with
  | nil => simp [scanFrames]
  | cons f rest ih =>
    cases f with
    | found raw =>
      by_cases hv : jsTrim raw = "" <;> simp [scanFrames, hv, ih]
    | noCode => simpa [scanFrames] using ih
    | raiseErr msg => simp [scanFrames, scanFrames_notified]

/-! ### The component catch block: error classification
(src/components/QRScanner.tsx) -/

/-- The error taxonomy distinguished by the component's catch block. -/
inductive ErrKind where
  | PermissionDenied
  | NoCamera
  | Unsupported
  | UnknownErr
deriving DecidableEq

/-- Embedding of the catch block's chain of regular-expression tests on the
error message: `/NotAllowedError/i`, then `/NotFoundError|OverconstrainedError/i`,
then `/NotSupportedError/i`, else the catch-all. -/
def classifyStartError (message : String) : ErrKind :=
  if containsCI message "NotAllowedError" then ErrKind.PermissionDenied
  else if containsCI message "NotFoundError"
       || containsCI message "OverconstrainedError" then ErrKind.NoCamera
  else if containsCI message "NotSupportedError" then ErrKind.Unsupported
  else ErrKind.UnknownErr

/-- Observable effect of the component's catch block on a start failure. -/
structure CatchResult where
  kind : ErrKind
  delivered : Option String
  fallbackSelected : Bool
deriving DecidableEq

/-- Embedding of the catch block: classify the message into a hint, deliver
the raw platform message via `onError`, and switch to the still-image
fallback (`setFallback(true)`) — on every branch. -/
def handleStartError (message : String) : CatchResult :=
  { kind := classifyStartError message
    delivered := some message
    fallbackSelected := true }

/-- Counterexample to C4 as stated: on a permission-refused platform error
the component does select the still-image fallback strategy
(`setFallback(true)`), rather than terminating with no fallback. -/
theorem handleStartError_fallback_on_permission :
    (handleStartError "NotAllowedError: Permission denied").kind
        = ErrKind.PermissionDenied ∧
    (handleStartError "NotAllowedError: Permission denied").fallbackSelected
        = true := by
  decide

/-- Claim C4 (amended): a stream-acquisition failure whose message carries
`NotAllowedError` is classified PermissionDenied and the platform message is
delivered verbatim to the caller via `onError`; the component then switches
to the still-image fallback strategy instead of terminating in a Failed
state. -/
theorem handleStartError_permission (message : String)
    (h : containsCI message "NotAllowedError" = true) :
    handleStartError message =
      ⟨ErrKind.PermissionDenied, some message, true⟩ := by
  simp [handleStartError, classifyStartError, h]

/-- Witness for C4 at the concrete platform message. -/
theorem handleStartError_permission_witness :
    containsCI "NotAllowedError: Permission denied by user" "NotAllowedError"
        = true ∧
    handleStartError "NotAllowedError: Permission denied by user" =
      ⟨ErrKind.PermissionDenied,
       some "NotAllowedError: Permission denied by user", true⟩ :=
  ⟨by decide,
   handleStartError_permission "NotAllowedError: Permission denied by user"
     (by decide)⟩

/-! ### The memoized external decoder loader -/

/-- The loader's process-wide state: the `window.Html5Qrcode` global (set by
the fetched script), the memoized `loaderPromise` (a promise id), and a
counter supplying fresh promise ids. -/
structure LoaderState where
  htmlGlobal : Option Nat
  memo : Option Nat
  nextPromiseId : Nat
deriving DecidableEq

/-- What a `load()` call returns: an immediate rejection (not a browser), an
immediately resolved promise carrying the already-present global, or the
(shared) pending promise named by its id. -/
inductive LoadOutcome where
  | rejectedNotBrowser
  | immediate (ctor : Nat)
  | pending (pid : Nat)
deriving DecidableEq

/-- Embedding of `loadHtml5Qrcode`: reject outside the browser; resolve at
once when the global is already present; otherwise return the memoized
promise, creating it on first call. -/
def loadHtml5Qrcode (isBrowser : Bool) (st : LoaderState) :
    LoadOutcome × LoaderState :=
  if !isBrowser then (LoadOutcome.rejectedNotBrowser, st)
  else
    match st.htmlGlobal with
    | some ctor => (LoadOutcome.immediate ctor, st)
    | none =>
      match st.memo with
      | some pid => (LoadOutcome.pending pid, st)
      | none =>
        let pid := st.nextPromiseId
        (LoadOutcome.pending pid,
         { st with memo := some pid, nextPromiseId := pid + 1 })

/-- How the injected script settles: it ran and set the global, it ran
without setting the global, or the network request failed. -/
inductive ScriptEvent where
  | loadedWithGlobal (ctor : Nat)
  | loadedWithoutGlobal
  | networkError
deriving DecidableEq

/-- The fate of the shared pending promise. -/
inductive PromiseFate where
  | resolved (ctor : Nat)
  | rejected (msg : String)
deriving DecidableEq

/-- Embedding of the script's `onload`/`onerror` handlers: success resolves
the shared promise with the global; both failure branches clear the memo
(`loaderPromise = null`) and reject. -/
def onScriptSettle (st : LoaderState) (ev : ScriptEvent) :
    LoaderState × PromiseFate :=
  match ev with
  | ScriptEvent.loadedWithGlobal ctor =>
    ({ st with htmlGlobal := some ctor }, PromiseFate.resolved ctor)
  | ScriptEvent.loadedWithoutGlobal =>
    ({ st with memo := none }, PromiseFate.rejected "扫码库加载失败")
  | ScriptEvent.networkError =>
    ({ st with memo := none }, PromiseFate.rejected "无法加载扫码库")

/-- Claim C5: the loader is memoized — the first `load()` creates the shared
pending promise and a second caller receives the very same promise with no
state change; and on load failure the memo is cleared as the promise
rejects, so a later `load()` creates a fresh promise (a re-attempt) rather
than returning the cached failure. -/
theorem loader_memoized (st : LoaderState)
    (hg : st.htmlGlobal = none) (hm : st.memo = none) :
    (loadHtml5Qrcode true st).1 = LoadOutcome.pending st.nextPromiseId ∧
    (loadHtml5Qrcode true (loadHtml5Qrcode true st).2).1 =
      LoadOutcome.pending st.nextPromiseId ∧
    (loadHtml5Qrcode true (loadHtml5Qrcode true st).2).2 =
      (loadHtml5Qrcode true st).2 ∧
    (∀ ev, (ev = ScriptEvent.loadedWithoutGlobal ∨ ev = ScriptEvent.networkError) →
      (onScriptSettle (loadHtml5Qrcode true st).2 ev).1.memo = none ∧
      (∃ m, (onScriptSettle (loadHtml5Qrcode true st).2 ev).2 =
        PromiseFate.rejected m) ∧
      (loadHtml5Qrcode true (onScriptSettle (loadHtml5Qrcode true st).2 ev).1).1 =
        LoadOutcome.pending (st.nextPromiseId + 1) ∧
      st.nextPromiseId + 1 ≠ st.nextPromiseId) := by
  refine ⟨by simp [loadHtml5Qrcode, hg, hm], by simp [loadHtml5Qrcode, hg, hm],
    by simp [loadHtml5Qrcode, hg, hm], ?_⟩
  rintro ev (rfl | rfl) <;>
    simp [loadHtml5Qrcode, onScriptSettle, hg, hm]

/-- Witness for C5 at the initial loader state. -/
theorem loader_memoized_witness :
    (loadHtml5Qrcode true ⟨none, none, 0⟩).1 = LoadOutcome.pending 0 ∧
    (loadHtml5Qrcode true
        (onScriptSettle (loadHtml5Qrcode true ⟨none, none, 0⟩).2
          ScriptEvent.networkError).1).1 = LoadOutcome.pending 1 :=
  ⟨(loader_memoized ⟨none, none, 0⟩ rfl rfl).1,
   ((loader_memoized ⟨none, none, 0⟩ rfl rfl).2.2.2
      ScriptEvent.networkError (Or.inr rfl)).2.2.1⟩

/-! ### The still-image fallback: `onPickFile` -/

/-- Embedding of the `onPickFile` handler's delivery: `scanFile` either
resolves with the decoded text (`some text`) — which is trimmed and handed
to `onDetected` unconditionally — or rejects (`none`), taking the error
path with no delivery. Returns the value delivered to `onDetected`, if
any. -/
def onPickFile (scanFileOutcome : Option String) : Option String :=
  match scanFileOutcome with
  | some text => some (jsTrim text)
  | none => none

/-- Every value a camera session delivers is non-empty. -/
theorem runSession_nonempty (c : Bool) (evs : List ScanEvent) (v : String)
    (hv : v ∈ runSession c evs) : v ≠ "" := by
  induction evs generalizing c with
  | nil => simp [runSession] at hv
  | cons e rest ih =>
    cases e with
    | close =>
      rw [runSession] at hv
      exact ih true hv
    | decode t =>
      cases c with
      | true =>
        rw [runSession_cancelled] at hv
        simp at hv
      | false =>
        by_cases ht : jsTrim t = ""
        · rw [runSession] at hv
          simp only [handleDecode, if_neg Bool.false_ne_true, ht, if_pos rfl] at hv
          exact ih false hv
        · rw [runSession] at hv
          simp only [handleDecode, if_neg Bool.false_ne_true, if_neg ht] at hv
          rcases List.mem_cons.1 hv with rfl | hv'
          · exact ht
          · exact ih true hv'

/-- Every value the native detection loop delivers is non-empty. -/
theorem scanFrames_success_nonempty (b : Bool) (fs : List FrameResult)
    (v : String) (hv : (scanFrames b fs).success = some v) : v ≠ "" := by
  induction fs generalizing b with
  | nil => simp [scanFrames] at hv
  | cons f rest ih =>
    cases f with
    | found raw =>
      by_cases hr : jsTrim raw = ""
      · rw [scanFrames] at hv
        simp only [hr, if_pos rfl] at hv
        exact ih b hv
      · rw [scanFrames] at hv
        simp only [if_neg hr] at hv
        obtain rfl : jsTrim raw = v := by simpa using hv
        exact hr
    | noCode =>
      rw [scanFrames] at hv
      exact ih b hv
    | raiseErr m =>
      cases b with
      | true =>
        rw [scanFrames] at hv
        simp only [if_pos rfl] at hv
        exact ih true hv
      | false =>
        rw [scanFrames] at hv
        simp only [Bool.false_eq_true, if_neg] at hv
        exact ih true hv

/-- Counterexample to C6 as stated: on the still-image file fallback a
whitespace-only decode result is delivered to `onDetected` as the empty
string — it is not treated as "nothing found". -/
theorem onPickFile_delivers_empty :
    onPickFile (some "   ") = some "" := by
  decide

/-- Claim C6 (amended): on the camera strategy paths (the component's
decode-success callback and the native frame loop) every delivered value is
non-empty after trimming; the still-image file fallback trims the decoded
text but delivers it unconditionally, so a whitespace-only decode yields an
empty delivered value there. -/
theorem delivered_values_trimmed (evs : List ScanEvent)
    (fs : List FrameResult) (v w : String)
    (hv : v ∈ runSession false evs)
    (hw : (scanFrames false fs).success = some w) :
    v ≠ "" ∧ w ≠ "" ∧ (∀ t, onPickFile (some t) = some (jsTrim t)) :=
  ⟨runSession_nonempty false evs v hv,
   scanFrames_success_nonempty false fs w hw,
   fun _ => rfl⟩

/-- Witness for C6 (amended) at concrete inputs. -/
theorem delivered_values_trimmed_witness :
    ("X" ∈ runSession false [ScanEvent.decode " X "]) ∧
    ((scanFrames false [FrameResult.found " Y "]).success = some "Y") ∧
    ("X" ≠ "" ∧ "Y" ≠ "" ∧ ∀ t, onPickFile (some t) = some (jsTrim t)) :=
  ⟨by decide, by decide,
   delivered_values_trimmed [ScanEvent.decode " X "]
     [FrameResult.found " Y "] "X" "Y" (by decide) (by decide)⟩

/-! ### Strategy selection in the component effect body
(src/components/QRScanner.tsx) -/

/-- The environment facts read by `getEnv` that the effect body branches
on. -/
structure BrowserEnv where
  isSecure : Bool
  canMedia : Bool
  isIOS : Bool
  isIOSChrome : Bool
deriving DecidableEq

/-- How one run of the effect body ends: bail (wrapper unmounted), select
the still-image fallback, or start the camera (stream acquisition). -/
inductive OpenOutcome where
  | bail
  | fallbackMode
  | cameraStart
deriving DecidableEq

/-- Observable trace of the effect body: its outcome and whether camera
stream acquisition was attempted. -/
structure OpenTrace where
  outcome : OpenOutcome
  streamAttempted : Bool
deriving DecidableEq

/-- Embedding of the component effect body: await the library loader (a
failure lands in the catch block, which selects the fallback); bail if the
wrapper is unmounted; with an insecure context or no media-stream API,
select the fallback before any camera work; after the iOS-Chrome device
probe (`enumOk` tells whether `enumerateDevices` resolved, `enumHasCam`
whether it listed a camera), fall back when iOS Chrome reports no camera;
otherwise call `scanner.start`, which acquires the stream. -/
def openScanBody (env : BrowserEnv) (loadOk mounted enumOk enumHasCam : Bool) :
    OpenTrace :=
  if !loadOk then ⟨OpenOutcome.fallbackMode, false⟩
  else if !mounted then ⟨OpenOutcome.bail, false⟩
  else if !env.isSecure || !env.canMedia then ⟨OpenOutcome.fallbackMode, false⟩
  else if env.isIOS && env.isIOSChrome && enumOk && !enumHasCam then
    ⟨OpenOutcome.fallbackMode, false⟩
  else ⟨OpenOutcome.cameraStart, true⟩

/-- Claim C7: whenever the capability probe reports no live-camera
capability (insecure context or no media-stream API), the effect body never
attempts camera stream acquisition, and — whenever it runs against a mounted
wrapper — it selects the still-image fallback strategy. -/
theorem openScanBody_no_camera (env : BrowserEnv)
    (loadOk mounted enumOk enumHasCam : Bool)
    (h : env.isSecure = false ∨ env.canMedia = false) :
    (openScanBody env loadOk mounted enumOk enumHasCam).streamAttempted
        = false ∧
    (openScanBody env loadOk mounted enumOk enumHasCam).outcome
        ≠ OpenOutcome.cameraStart ∧
    (mounted = true →
      (openScanBody env loadOk mounted enumOk enumHasCam).outcome
          = OpenOutcome.fallbackMode) := by
  rcases h with h | h <;>
    cases loadOk <;> cases mounted <;>
      simp_all [openScanBody]

/-- Witness for C7: an insecure context with a mounted wrapper selects the
fallback and attempts no stream. -/
theorem openScanBody_no_camera_witness :
    (openScanBody ⟨false, true, false, false⟩ true true true true).outcome
        = OpenOutcome.fallbackMode ∧
    (openScanBody ⟨false, true, false, false⟩ true true true true).streamAttempted
        = false :=
  ⟨(openScanBody_no_camera ⟨false, true, false, false⟩ true true true true
      (Or.inl rfl)).2.2 rfl,
   (openScanBody_no_camera ⟨false, true, false, false⟩ true true true true
      (Or.inl rfl)).1⟩
